import Mathlib

/-!
Shallow embedding of the query execution and aggregation engine of the
go-search CLI (src/search.go, src/config.go, and the main entry point).

Modelling conventions:

* A call to the Answer Engine (`client.Models.GenerateContent`) is modelled
  as a function `Nat → GenResult` from attempt index to the pair
  (error, text) the Go call returns: `err : Option String` is the Go
  `error` value (`none` = `nil`), `text` is `response.Text()`.
* Time is modelled as a natural-number clock.  Following the concurrency
  model of the system (suspension points are exactly the network calls and
  the fixed 3-second retry sleeps), the clock advances only at engine
  calls (by `dur attempt`) and at the retry sleep (by 3).
* `time.Duration` and `time.Time` become `Nat` (`duration`, `timestamp`).
* A Go function returning `(*SearchResult, error)` becomes a structure
  with the result, the Go error (`Option String`, `none` = `nil`), and
  the clock value when the function returns.
-/

/-- One Answer Engine call's outcome: the Go `(response, err)` pair of
`client.Models.GenerateContent`, with `text` standing for `response.Text()`. -/
structure GenResult where
  err : Option String
  text : String
  deriving DecidableEq, Repr

/-- Go struct `SearchResult` (src/config.go). `duration` and `timestamp`
are on the abstract clock. -/
structure SearchResult where
  query : String
  response : String
  summary : String
  success : Bool
  error : String
  duration : Nat
  timestamp : Nat
  deriving DecidableEq, Repr

/-- The zero value of `SearchResult`, as produced by
`make([]SearchResult, len(queries))`. -/
def SearchResult.zero : SearchResult :=
  { query := "", response := "", summary := "", success := false,
    error := "", duration := 0, timestamp := 0 }

/-- Go struct `MultiSearchResult` (src/config.go). -/
structure MultiSearchResult where
  results : List SearchResult
  totalTime : Nat
  success : Bool
  error : String
  deriving DecidableEq, Repr

/-- The Go retry-loop break condition `err == nil && response.Text() != ""`
(src/search.go line 91). -/
def attemptOk (r : GenResult) : Bool :=
  r.err.isNone && r.text != ""

/-- Output of the unrolled retry loop of `performSingleSearch`
(src/search.go lines 80-99): the final `(response, err)` pair, the number
of engine calls made, and the clock when the loop exits. -/
structure LoopOut where
  resp : GenResult
  attempts : Nat
  tEnd : Nat
  deriving DecidableEq, Repr

/-- The retry loop of `performSingleSearch` (src/search.go lines 80-99):
`for attempt := 0; attempt < 2; attempt++`.  Attempt 0 runs; if it returned
no error and non-empty text the loop breaks, otherwise the code sleeps 3
seconds and attempt 1 runs.  At most two engine calls. -/
def searchLoop (engine : Nat → GenResult) (dur : Nat → Nat) (t0 : Nat) : LoopOut :=
  let r0 := engine 0
  let t1 := t0 + dur 0
  if attemptOk r0 then
    { resp := r0, attempts := 1, tEnd := t1 }
  else
    { resp := engine 1, attempts := 2, tEnd := t1 + 3 + dur 1 }

/-- Return value of an executor: the `*SearchResult`, the Go `error`
(`none` = `nil`), and the clock at return. -/
structure ExecOut where
  result : SearchResult
  goErr : Option String
  tEnd : Nat
  deriving DecidableEq, Repr

/-- `performSingleSearch` (src/search.go lines 54-118).  Runs the retry
loop, then: on a final call error sets `Error = "Search failed"` and
returns the wrapping Go error; on a final empty text sets
`Error = "Empty response"`; otherwise sets `Response` and `Success`.
`Duration = time.Since(startTime)` covers the whole loop including the
retry sleep. -/
def performSingleSearch (engine : Nat → GenResult) (dur : Nat → Nat)
    (query : String) (t0 : Nat) : ExecOut :=
  let L := searchLoop engine dur t0
  let base : SearchResult :=
    { query := query, response := "", summary := "", success := false,
      error := "", duration := L.tEnd - t0, timestamp := t0 }
  if L.resp.err.isSome then
    { result := { base with error := "Search failed" },
      goErr := some ("failed to generate content after retries: "
        ++ L.resp.err.getD ""),
      tEnd := L.tEnd }
  else if L.resp.text = "" then
    { result := { base with error := "Empty response" },
      goErr := some "received empty response after retries",
      tEnd := L.tEnd }
  else
    { result := { base with response := L.resp.text, success := true },
      goErr := none,
      tEnd := L.tEnd }

/-- One event of a streaming iterator: what one iteration of
`for response, err := range iterator` (src/search.go lines 163-175) sees.
`Except.error e` is a yielded non-nil error; `Except.ok (hasCand, txt)` is a
response with `len(response.Candidates) > 0 = hasCand` and
`response.Text() = txt`. -/
inductive StreamEvent where
  | errEv (e : String)
  | chunkEv (hasCand : Bool) (txt : String)
  deriving DecidableEq, Repr

/-- The inner chunk loop of one streaming attempt (src/search.go lines
163-175): accumulate `response.Text()` for events with candidates, stop at
the first error.  Returns the accumulated `responseText` and the error that
broke the loop, if any. -/
def runStream : List StreamEvent → String → String × Option String
  | [], acc => (acc, none)
  | StreamEvent.errEv e :: _, acc => (acc, some e)
  | StreamEvent.chunkEv hasCand txt :: rest, acc =>
      runStream rest (if hasCand then acc ++ txt else acc)

/-- Output of the unrolled streaming retry loop: the final `responseText`,
the final `lastErr` (which persists across attempts in the Go code), the
number of attempts started, and the clock at loop exit. -/
structure StreamLoopOut where
  text : String
  lastErr : Option String
  attempts : Nat
  tEnd : Nat
  deriving DecidableEq, Repr

/-- The streaming retry loop of `performSingleSearchStream` (src/search.go
lines 151-186).  `responseText` is reset at the start of each attempt;
`lastErr` is set only when a stream yields an error and is NOT reset
between attempts.  The loop breaks when an attempt completed without error
(`streamSuccess`) and accumulated non-empty text. -/
def streamLoop (sengine : Nat → List StreamEvent) (dur : Nat → Nat)
    (t0 : Nat) : StreamLoopOut :=
  let a0 := runStream (sengine 0) ""
  let t1 := t0 + dur 0
  if a0.2.isNone && a0.1 != "" then
    { text := a0.1, lastErr := a0.2, attempts := 1, tEnd := t1 }
  else
    let a1 := runStream (sengine 1) ""
    let lastErr := match a1.2 with
      | some e => some e
      | none => a0.2
    { text := a1.1, lastErr := lastErr, attempts := 2, tEnd := t1 + 3 + dur 1 }

/-- `performSingleSearchStream` (src/search.go lines 120-207).  After the
retry loop: `lastErr != nil && responseText == ""` gives
`"Stream search failed"`; then `responseText == ""` gives
`"Empty stream response"`; otherwise success with the accumulated text. -/
def performSingleSearchStream (sengine : Nat → List StreamEvent)
    (dur : Nat → Nat) (query : String) (t0 : Nat) : ExecOut :=
  let L := streamLoop sengine dur t0
  let base : SearchResult :=
    { query := query, response := "", summary := "", success := false,
      error := "", duration := L.tEnd - t0, timestamp := t0 }
  if L.lastErr.isSome && L.text == "" then
    { result := { base with error := "Stream search failed" },
      goErr := some ("failed to stream content after retries: "
        ++ L.lastErr.getD ""),
      tEnd := L.tEnd }
  else if L.text == "" then
    { result := { base with error := "Empty stream response" },
      goErr := some "received empty stream response after retries",
      tEnd := L.tEnd }
  else
    { result := { base with response := L.text, success := true },
      goErr := none,
      tEnd := L.tEnd }

/-- The retry loop of `generateSummary` (src/search.go lines 218-236):
same two-attempt shape as `searchLoop`; timing is irrelevant to the
summariser's value so the clock is not threaded here. -/
def summaryLoop (sumEngine : Nat → GenResult) : GenResult :=
  let r0 := sumEngine 0
  if attemptOk r0 then r0 else sumEngine 1

/-- `generateSummary` (src/search.go lines 209-247).  Returns the Go
`(string, error)` pair as an `Except`: an error message, or the summary
text. -/
def generateSummary (sumEngine : Nat → GenResult) : Except String String :=
  let r := summaryLoop sumEngine
  if r.err.isSome then
    Except.error ("failed to generate summary after retries: " ++ r.err.getD "")
  else if r.text = "" then
    Except.error "received empty summary after retries"
  else
    Except.ok r.text

/-- The `if err != nil` branching on a `generateSummary` call shared by
`processQuery` (src/search.go lines 330-335) and `main`
(src/unnamed/part_000 lines 48-53): a failed summary degrades to the
sentinel, a successful one is used as is. -/
def summaryOrSentinel : Except String String → String
  | Except.error _ => "Summary generation failed"
  | Except.ok s => s

/-- The per-query collaborators one batch worker uses: the Answer Engine
as seen by that query's `performSingleSearch` call (per-attempt results
and durations) and by its `generateSummary` call. -/
structure QueryEnv where
  engine : Nat → GenResult
  dur : Nat → Nat
  sumEngine : Nat → GenResult

/-- `processQuery` (src/search.go lines 307-339).  On executor error the
stored outcome's `Error` is `err.Error()` — the wrapping Go error message —
and `Duration` is re-measured from `processQuery`'s own start time.  On
success the `Response`, `Success` and `Duration` fields are copied from the
executor's result, and a failing `generateSummary` degrades to the sentinel
`"Summary generation failed"`. -/
def processQuery (env : QueryEnv) (includeSummary : Bool) (query : String)
    (t0 : Nat) : SearchResult :=
  let startTime := t0
  let ex := performSingleSearch env.engine env.dur query t0
  if ex.goErr.isSome then
    { query := query, response := "", summary := "", success := false,
      error := ex.goErr.getD "", duration := ex.tEnd - startTime,
      timestamp := startTime }
  else
    let result : SearchResult :=
      { query := query, response := ex.result.response, summary := "",
        success := ex.result.success, error := "",
        duration := ex.result.duration, timestamp := startTime }
    if result.success && includeSummary then
      { result with summary := summaryOrSentinel (generateSummary env.sumEngine) }
    else result

/-- The summary attachment of the single-query path in `main`
(src/unnamed/part_000 lines 46-54): after a successful search, a failing
`generateSummary` sets the sentinel summary and never touches `Success`. -/
def mainSingleSummary (result : SearchResult) (includeSummary : Bool)
    (sumEngine : Nat → GenResult) : SearchResult :=
  if includeSummary && result.success then
    { result with summary := summaryOrSentinel (generateSummary sumEngine) }
  else result

/-- The failure summary string `fmt.Sprintf("Completed %d/%d queries
successfully", successCount, len(queries))` (src/search.go line 301). -/
def failureSummary (k n : Nat) : String :=
  "Completed " ++ Nat.repr k ++ "/" ++ Nat.repr n ++ " queries successfully"

/-- The slot writes `results[index] = result` performed by the batch
workers (src/search.go line 268), replayed in an arbitrary completion
order: each index `i` in `order` writes `outcome i` into slot `i` of the
array. -/
def foldWrites (outcome : Nat → SearchResult) (order : List Nat)
    (init : List SearchResult) : List SearchResult :=
  order.foldl (fun acc i => acc.set i (outcome i)) init

/-- What worker `i` of the batch computes (src/search.go line 267):
`processQuery(ctx, queries[i], client, config.includeSummary)`, with the
worker's view of the shared client given by `env i`.  All workers are
spawned at batch start `t0`. -/
def batchOutcome (env : Nat → QueryEnv) (includeSummary : Bool)
    (queries : List String) (t0 : Nat) (i : Nat) : SearchResult :=
  processQuery (env i) includeSummary (queries.getD i "") t0

/-- `processMultipleQueries` (src/search.go lines 249-305), parameterised
by the completion order `order` in which the workers' slot writes land.
`results` starts as `make([]SearchResult, len(queries))`; after all writes,
`Success` is `successCount == len(queries)` and on partial failure `Error`
is the `"Completed k/n queries successfully"` string. -/
def processMultipleQueries (env : Nat → QueryEnv) (includeSummary : Bool)
    (queries : List String) (t0 tTotal : Nat) (order : List Nat) :
    MultiSearchResult :=
  let results := foldWrites (batchOutcome env includeSummary queries t0)
    order (List.replicate queries.length SearchResult.zero)
  let successCount := results.countP (fun r => r.success)
  { results := results,
    totalTime := tTotal,
    success := successCount == queries.length,
    error := if successCount == queries.length then ""
      else failureSummary successCount queries.length }

/-!
Operational model of the worker pool (src/search.go lines 256-276).  Each
query `i` gets a goroutine; the goroutine acquires the counting semaphore
`sem` (a channel of capacity `config.workers`), runs `processQuery` while
holding it, then releases it.  A worker is "in flight" (its Answer Engine
calls are running) exactly while it holds a semaphore token, i.e. while it
is in phase `running`.  The semaphore send `sem <- struct{}{}` is enabled
only while fewer than `cap` tokens are held.
-/

/-- Lifecycle phase of one batch worker goroutine: before semaphore
acquisition, holding the semaphore while `processQuery` runs, or finished
(token released). -/
inductive Phase where
  | idle
  | running
  | done
  deriving DecidableEq, Repr

/-- Whether a worker currently holds a semaphore token. -/
def isRunning : Phase → Bool
  | Phase.running => true
  | _ => false

/-- Number of workers simultaneously inside the semaphore-guarded region,
i.e. with an executor call in flight. -/
def countRunning (phases : List Phase) : Nat :=
  phases.countP isRunning

/-- One scheduler step of the batch run with semaphore capacity `cap`
(`config.workers`): a goroutine may acquire the semaphore only when fewer
than `cap` tokens are held, and a running goroutine may finish and release
its token.  Interleaving is otherwise unconstrained. -/
inductive PoolStep (cap : Nat) : List Phase → List Phase → Prop where
  | acquire (phases : List Phase) (i : Nat)
      (hidle : phases.getD i Phase.done = Phase.idle)
      (hsem : countRunning phases < cap) :
      PoolStep cap phases (phases.set i Phase.running)
  | release (phases : List Phase) (i : Nat)
      (hrun : phases.getD i Phase.done = Phase.running) :
      PoolStep cap phases (phases.set i Phase.done)

/-- The initial pool state for a batch of `n` queries: all goroutines
spawned, none holding the semaphore. -/
def initPool (n : Nat) : List Phase :=
  List.replicate n Phase.idle

/-- Setting slot `i` changes `countP` by swapping the old element's
contribution for the new one's. -/
theorem countP_set_getD (p : α → Bool) (l : List α) (i : Nat) (v d : α)
    (h : i < l.length) :
    (l.set i v).countP p + (if p (l.getD i d) then 1 else 0)
      = l.countP p + (if p v then 1 else 0) := by
  induction l generalizing i with
  | nil => simp at h
  | cons a t ih =>
      cases i with
      | zero => simp [List.countP_cons, List.getD]; omega
      | succ j =>
          have hj : j < t.length := by simpa using h
          have := ih j hj
          simp only [List.set, List.countP_cons, List.getD_cons_succ]
          omega

/-- `foldWrites` never changes the length of the results array. -/
theorem foldWrites_length (f : Nat → SearchResult) (order : List Nat)
    (init : List SearchResult) :
    (foldWrites f order init).length = init.length := by
  induction order generalizing init with
  | nil => rfl
  | cons j rest ih =>
      simpa [foldWrites, List.length_set] using ih (init.set j (f j))

/-- A slot no write targets keeps its initial content. -/
theorem foldWrites_getD_not_mem (f : Nat → SearchResult) (order : List Nat)
    (init : List SearchResult) (i : Nat) (d : SearchResult)
    (hmem : i ∉ order) :
    (foldWrites f order init).getD i d = init.getD i d := by
  induction order generalizing init with
  | nil => rfl
  | cons j rest ih =>
      have hne : j ≠ i := fun h => hmem (h ▸ List.mem_cons_self j rest)
      have hrest : i ∉ rest := fun h => hmem (List.mem_cons_of_mem j h)
      calc (foldWrites f (j :: rest) init).getD i d
          = (init.set j (f j)).getD i d := ih (init.set j (f j)) hrest
        _ = init.getD i d := by
            simp [List.getD_eq_getElem?_getD, List.getElem?_set_ne hne]

/-- A slot some write targets ends up holding that worker's outcome
(several writes to one slot all write the same value). -/
theorem foldWrites_getD_mem (f : Nat → SearchResult) (order : List Nat)
    (init : List SearchResult) (i : Nat) (d : SearchResult)
    (hmem : i ∈ order) (hlen : i < init.length) :
    (foldWrites f order init).getD i d = f i := by
  induction order generalizing init with
  | nil => cases hmem
  | cons j rest ih =>
      by_cases hr : i ∈ rest
      · exact ih (init.set j (f j)) hr (by simpa [List.length_set] using hlen)
      · have hij : i = j := by
          rcases List.mem_cons.mp hmem with h | h
          · exact h
          · exact absurd h hr
        subst hij
        calc (foldWrites f (i :: rest) init).getD i d
            = (init.set i (f i)).getD i d :=
              foldWrites_getD_not_mem f rest (init.set i (f i)) i d hr
          _ = f i := by
              simp [List.getD_eq_getElem?_getD, List.getElem?_set_self hlen]

/-- At batch start no worker holds the semaphore. -/
theorem countRunning_initPool (n : Nat) : countRunning (initPool n) = 0 := by
  simp [countRunning, initPool, List.countP_replicate, isRunning]

/-- A `getD` with default `Phase.done` returning a different phase implies
the index is in range. -/
theorem getD_phase_lt {phases : List Phase} {i : Nat} {p : Phase}
    (hp : p ≠ Phase.done) (h : phases.getD i Phase.done = p) :
    i < phases.length := by
  by_contra hge
  have hnone : phases[i]? = none := List.getElem?_eq_none (Nat.le_of_not_lt hge)
  rw [List.getD_eq_getElem?_getD, hnone] at h
  exact hp h.symm

/-- Each scheduler step preserves the semaphore bound. -/
theorem poolStep_preserves {cap : Nat} {s s' : List Phase}
    (hstep : PoolStep cap s s') (hinv : countRunning s ≤ cap) :
    countRunning s' ≤ cap := by
  cases hstep with
  | acquire i hidle hsem =>
      have hlt : i < s.length := getD_phase_lt (by simp) hidle
      have h := countP_set_getD isRunning s i Phase.running Phase.done hlt
      rw [hidle] at h
      simp only [isRunning] at h
      simp only [countRunning] at hsem ⊢
      simp at h
      omega
  | release i hrun =>
      have hlt : i < s.length := getD_phase_lt (by simp) hrun
      have h := countP_set_getD isRunning s i Phase.done Phase.done hlt
      rw [hrun] at h
      simp only [isRunning] at h
      simp only [countRunning] at hinv ⊢
      simp at h
      omega

/-! ### Basic facts about the executors -/

/-- A string with a non-empty literal prefix is non-empty. -/
theorem append_ne_empty_left (s t : String) (hs : s.data ≠ []) :
    s ++ t ≠ "" := by
  intro h
  have hd := congrArg String.data h
  rw [String.data_append] at hd
  exact hs (List.append_eq_nil.mp hd).1

/-- The non-streaming executor's Go error is `nil` exactly when its
outcome records success. -/
theorem performSingleSearch_success_iff (engine : Nat → GenResult)
    (dur : Nat → Nat) (query : String) (t0 : Nat) :
    (performSingleSearch engine dur query t0).result.success = true ↔
    (performSingleSearch engine dur query t0).goErr = none := by
  by_cases h1 : (searchLoop engine dur t0).resp.err.isSome
  · simp [performSingleSearch, h1]
  · by_cases h2 : (searchLoop engine dur t0).resp.text = "" <;>
      simp [performSingleSearch, h1, h2]

/-- The streaming executor's Go error is `nil` exactly when its outcome
records success. -/
theorem performSingleSearchStream_success_iff (sengine : Nat → List StreamEvent)
    (dur : Nat → Nat) (query : String) (t0 : Nat) :
    (performSingleSearchStream sengine dur query t0).result.success = true ↔
    (performSingleSearchStream sengine dur query t0).goErr = none := by
  by_cases h1 : (streamLoop sengine dur t0).lastErr.isSome <;>
    by_cases h2 : (streamLoop sengine dur t0).text = "" <;>
      simp [performSingleSearchStream, h1, h2]

/-- Any Go error message the non-streaming executor returns is non-empty. -/
theorem performSingleSearch_goErr_ne_empty (engine : Nat → GenResult)
    (dur : Nat → Nat) (query : String) (t0 : Nat) (e : String)
    (h : (performSingleSearch engine dur query t0).goErr = some e) :
    e ≠ "" := by
  by_cases h1 : (searchLoop engine dur t0).resp.err.isSome
  · simp [performSingleSearch, h1] at h
    exact h ▸ append_ne_empty_left _ _ (by decide)
  · by_cases h2 : (searchLoop engine dur t0).resp.text = "" <;>
      simp [performSingleSearch, h1, h2] at h
    simp [← h]

/-- The `query` field of a batch per-query outcome is always the input
query. -/
theorem processQuery_query (env : QueryEnv) (includeSummary : Bool)
    (query : String) (t0 : Nat) :
    (processQuery env includeSummary query t0).query = query := by
  by_cases h1 : (performSingleSearch env.engine env.dur query t0).goErr.isSome
  · simp [processQuery, h1]
  · by_cases h2 : (performSingleSearch env.engine env.dur query t0).result.success
        && includeSummary <;>
      simp [processQuery, h1, h2]

/-- The retry-loop break condition fails exactly when the call errored or
returned empty text. -/
theorem attemptOk_eq_false_iff (r : GenResult) :
    attemptOk r = false ↔ (r.err ≠ none ∨ r.text = "") := by
  cases he : r.err <;> by_cases ht : r.text = "" <;>
    simp [attemptOk, he, ht]

/-- C3: the non-streaming executor makes at most 2 engine calls per query;
it makes a second call exactly when the first call errored or returned
empty text; and when the first call returns empty text while the second
returns non-empty text with no error, the outcome is a success carrying the
second call's text. -/
theorem executor_retry_policy (engine : Nat → GenResult) (dur : Nat → Nat)
    (query : String) (t0 : Nat) :
    (searchLoop engine dur t0).attempts ≤ 2 ∧
    ((searchLoop engine dur t0).attempts = 2 ↔
      ((engine 0).err ≠ none ∨ (engine 0).text = "")) ∧
    ((engine 0).text = "" → (engine 1).err = none → (engine 1).text ≠ "" →
      (performSingleSearch engine dur query t0).result.success = true ∧
      (performSingleSearch engine dur query t0).result.response
        = (engine 1).text) := by
  refine ⟨?_, ?_, ?_⟩
  · by_cases h : attemptOk (engine 0) <;> simp [searchLoop, h]
  · rw [← attemptOk_eq_false_iff]
    by_cases h : attemptOk (engine 0) <;> simp [searchLoop, h]
  · intro h0 h1e h1t
    have hok : attemptOk (engine 0) = false := by
      simp [attemptOk, h0]
    have hs : (engine 1).err.isSome = false := by simp [h1e]
    constructor <;> simp [performSingleSearch, searchLoop, hok, hs, h1t]

/-- Witness for `executor_retry_policy`: first attempt empty, second
returns "answer"; the outcome succeeds with the second attempt's text. -/
theorem executor_retry_policy_witness :
    (performSingleSearch
        (fun i => if i = 0 then { err := none, text := "" }
          else { err := none, text := "answer" })
        (fun _ => 1) "q" 0).result.success = true ∧
    (performSingleSearch
        (fun i => if i = 0 then { err := none, text := "" }
          else { err := none, text := "answer" })
        (fun _ => 1) "q" 0).result.response = "answer" :=
  (executor_retry_policy
      (fun i => if i = 0 then { err := none, text := "" }
        else { err := none, text := "answer" })
      (fun _ => 1) "q" 0).2.2 (by decide) (by decide) (by decide)

/-- C10: each single-query executor returns a non-nil Go error exactly when
its outcome records failure; in all cases the outcome carries the input
query and the elapsed duration of the whole retry loop, and on error a
non-empty failure reason. -/
theorem executor_error_iff_failure (engine : Nat → GenResult)
    (sengine : Nat → List StreamEvent) (dur sdur : Nat → Nat)
    (query : String) (t0 : Nat) :
    ((performSingleSearch engine dur query t0).goErr ≠ none ↔
      (performSingleSearch engine dur query t0).result.success = false) ∧
    ((performSingleSearchStream sengine sdur query t0).goErr ≠ none ↔
      (performSingleSearchStream sengine sdur query t0).result.success = false) ∧
    ((performSingleSearch engine dur query t0).result.query = query ∧
     (performSingleSearch engine dur query t0).result.duration
       = (searchLoop engine dur t0).tEnd - t0) ∧
    ((performSingleSearchStream sengine sdur query t0).result.query = query ∧
     (performSingleSearchStream sengine sdur query t0).result.duration
       = (streamLoop sengine sdur t0).tEnd - t0) ∧
    ((performSingleSearch engine dur query t0).goErr ≠ none →
      (performSingleSearch engine dur query t0).result.error ≠ "") ∧
    ((performSingleSearchStream sengine sdur query t0).goErr ≠ none →
      (performSingleSearchStream sengine sdur query t0).result.error ≠ "") := by
  refine ⟨?_, ?_, ?_, ?_, ?_, ?_⟩
  · constructor
    · intro hg
      cases hs : (performSingleSearch engine dur query t0).result.success
      · rfl
      · exact absurd ((performSingleSearch_success_iff engine dur query t0).mp hs) hg
    · intro hs hg
      have h := (performSingleSearch_success_iff engine dur query t0).mpr hg
      rw [hs] at h
      cases h
  · constructor
    · intro hg
      cases hs : (performSingleSearchStream sengine sdur query t0).result.success
      · rfl
      · exact absurd
          ((performSingleSearchStream_success_iff sengine sdur query t0).mp hs) hg
    · intro hs hg
      have h := (performSingleSearchStream_success_iff sengine sdur query t0).mpr hg
      rw [hs] at h
      cases h
  · by_cases h1 : (searchLoop engine dur t0).resp.err.isSome <;>
      by_cases h2 : (searchLoop engine dur t0).resp.text = "" <;>
        simp [performSingleSearch, h1, h2]
  · by_cases h1 : (streamLoop sengine sdur t0).lastErr.isSome <;>
      by_cases h2 : (streamLoop sengine sdur t0).text = "" <;>
        simp [performSingleSearchStream, h1, h2]
  · intro hg
    by_cases h1 : (searchLoop engine dur t0).resp.err.isSome <;>
      by_cases h2 : (searchLoop engine dur t0).resp.text = "" <;>
        simp [performSingleSearch, h1, h2] at hg ⊢
  · intro hg
    by_cases h1 : (streamLoop sengine sdur t0).lastErr.isSome <;>
      by_cases h2 : (streamLoop sengine sdur t0).text = "" <;>
        simp [performSingleSearchStream, h1, h2] at hg ⊢

/-- An engine whose every call errors. -/
def alwaysErrEngine : Nat → GenResult :=
  fun _ => { err := some "boom", text := "" }

/-- A streaming engine whose every attempt yields one error event. -/
def alwaysErrStream : Nat → List StreamEvent :=
  fun _ => [StreamEvent.errEv "boom"]

/-- Witness for `executor_error_iff_failure`: an always-erroring engine
produces non-empty failure reasons on both executors. -/
theorem executor_error_iff_failure_witness :
    (performSingleSearch alwaysErrEngine (fun _ => 1) "q" 0).result.error ≠ "" ∧
    (performSingleSearchStream alwaysErrStream (fun _ => 1) "q" 0).result.error ≠ "" :=
  ⟨(executor_error_iff_failure alwaysErrEngine alwaysErrStream
      (fun _ => 1) (fun _ => 1) "q" 0).2.2.2.2.1 (by decide),
   (executor_error_iff_failure alwaysErrEngine alwaysErrStream
      (fun _ => 1) (fun _ => 1) "q" 0).2.2.2.2.2 (by decide)⟩

/-- The spec's per-outcome invariant: exactly one of (success with
non-empty answer text and empty failure reason) or (failure with non-empty
failure reason and empty answer text). -/
def wellFormed (r : SearchResult) : Prop :=
  (r.success = true ∧ r.response ≠ "" ∧ r.error = "") ∨
  (r.success = false ∧ r.error ≠ "" ∧ r.response = "")

/-- The non-streaming executor's outcome satisfies the invariant. -/
theorem performSingleSearch_wf (engine : Nat → GenResult) (dur : Nat → Nat)
    (query : String) (t0 : Nat) :
    wellFormed (performSingleSearch engine dur query t0).result := by
  by_cases h1 : (searchLoop engine dur t0).resp.err.isSome <;>
    by_cases h2 : (searchLoop engine dur t0).resp.text = "" <;>
      simp [wellFormed, performSingleSearch, h1, h2]

/-- The streaming executor's outcome satisfies the invariant. -/
theorem performSingleSearchStream_wf (sengine : Nat → List StreamEvent)
    (dur : Nat → Nat) (query : String) (t0 : Nat) :
    wellFormed (performSingleSearchStream sengine dur query t0).result := by
  by_cases h1 : (streamLoop sengine dur t0).lastErr.isSome <;>
    by_cases h2 : (streamLoop sengine dur t0).text = "" <;>
      simp [wellFormed, performSingleSearchStream, h1, h2]

/-- The batch per-query outcome satisfies the invariant. -/
theorem processQuery_wf (env : QueryEnv) (includeSummary : Bool)
    (query : String) (t0 : Nat) :
    wellFormed (processQuery env includeSummary query t0) := by
  by_cases hge : (performSingleSearch env.engine env.dur query t0).goErr.isSome
  · obtain ⟨e, he⟩ := Option.isSome_iff_exists.mp hge
    have hne := performSingleSearch_goErr_ne_empty env.engine env.dur query t0 e he
    right
    refine ⟨?_, ?_, ?_⟩ <;> simp [processQuery, hge, he, hne]
  · have hnone : (performSingleSearch env.engine env.dur query t0).goErr = none :=
      Option.not_isSome_iff_eq_none.mp hge
    have hsucc : (performSingleSearch env.engine env.dur query t0).result.success
        = true :=
      (performSingleSearch_success_iff env.engine env.dur query t0).mpr hnone
    have hresp : (performSingleSearch env.engine env.dur query t0).result.response
        ≠ "" := by
      rcases performSingleSearch_wf env.engine env.dur query t0 with
        ⟨_, h, _⟩ | ⟨hf, _, _⟩
      · exact h
      · rw [hsucc] at hf; cases hf
    cases hinc : includeSummary <;>
      simp [processQuery, hge, wellFormed, hsucc, hinc, hresp]

/-- C7: every outcome produced by the non-streaming executor, the
streaming executor, or the batch per-query path is well-formed: success
with non-empty answer text and empty failure reason, or failure with
non-empty failure reason and empty answer text. -/
theorem every_outcome_wellFormed (engine : Nat → GenResult)
    (sengine : Nat → List StreamEvent) (dur sdur : Nat → Nat)
    (env : QueryEnv) (includeSummary : Bool) (query : String) (t0 : Nat) :
    wellFormed (performSingleSearch engine dur query t0).result ∧
    wellFormed (performSingleSearchStream sengine sdur query t0).result ∧
    wellFormed (processQuery env includeSummary query t0) :=
  ⟨performSingleSearch_wf engine dur query t0,
   performSingleSearchStream_wf sengine sdur query t0,
   processQuery_wf env includeSummary query t0⟩

/-- C5: the streaming executor starts a second attempt exactly when the
first attempt errored (its accumulated buffer is then discarded for the
retry decision) or completed with zero accumulated text; an attempt with
no error and non-empty accumulated text yields success carrying that
attempt's buffer; and a final failure carries `"Stream search failed"` or
`"Empty stream response"`. -/
theorem stream_retry_policy (sengine : Nat → List StreamEvent)
    (dur : Nat → Nat) (query : String) (t0 : Nat) :
    ((streamLoop sengine dur t0).attempts = 2 ↔
      ((runStream (sengine 0) "").2 ≠ none ∨ (runStream (sengine 0) "").1 = "")) ∧
    ((runStream (sengine 0) "").2 = none → (runStream (sengine 0) "").1 ≠ "" →
      (performSingleSearchStream sengine dur query t0).result.success = true ∧
      (performSingleSearchStream sengine dur query t0).result.response
        = (runStream (sengine 0) "").1) ∧
    (((runStream (sengine 0) "").2 ≠ none ∨ (runStream (sengine 0) "").1 = "") →
      (runStream (sengine 1) "").2 = none → (runStream (sengine 1) "").1 ≠ "" →
      (performSingleSearchStream sengine dur query t0).result.success = true ∧
      (performSingleSearchStream sengine dur query t0).result.response
        = (runStream (sengine 1) "").1) ∧
    ((performSingleSearchStream sengine dur query t0).result.success = false →
      (performSingleSearchStream sengine dur query t0).result.error
          = "Stream search failed" ∨
      (performSingleSearchStream sengine dur query t0).result.error
          = "Empty stream response") := by
  refine ⟨?_, ?_, ?_, ?_⟩
  · by_cases he : (runStream (sengine 0) "").2 = none <;>
      by_cases ht : (runStream (sengine 0) "").1 = "" <;>
        simp [streamLoop, he, ht]
  · intro he ht
    constructor <;> simp [performSingleSearchStream, streamLoop, he, ht]
  · intro hfail he1 ht1
    have hb : ((runStream (sengine 0) "").2.isNone
        && ((runStream (sengine 0) "").1 != "")) = false := by
      rcases hfail with h | h
      · obtain ⟨e, he⟩ := Option.ne_none_iff_exists'.mp h
        simp [he]
      · simp [h]
    constructor <;>
      simp [performSingleSearchStream, streamLoop, hb, he1, ht1]
  · intro hf
    by_cases h1 : (streamLoop sengine dur t0).lastErr.isSome <;>
      by_cases h2 : (streamLoop sengine dur t0).text = "" <;>
        simp [performSingleSearchStream, h1, h2] at hf ⊢

/-- A streaming engine yielding the two chunks "Hel" and "lo" then ending. -/
def helloStream : Nat → List StreamEvent :=
  fun _ => [StreamEvent.chunkEv true "Hel", StreamEvent.chunkEv true "lo"]

/-- Witness for `stream_retry_policy`: a first attempt streaming "Hel",
"lo" succeeds with accumulated text "Hello". -/
theorem stream_retry_policy_witness :
    (performSingleSearchStream helloStream (fun _ => 1) "q" 0).result.success
        = true ∧
    (performSingleSearchStream helloStream (fun _ => 1) "q" 0).result.response
        = "Hello" := by
  have h := (stream_retry_policy helloStream (fun _ => 1) "q" 0).2.1
    (by decide) (by decide)
  exact ⟨h.1, h.2.trans (by decide)⟩

/-- C6: when the executor call succeeded, a failing summarization call
never flips the outcome to failure: the outcome keeps `success=true` and
its summary becomes the sentinel `"Summary generation failed"`, both in
the batch path (`processQuery`) and in the single-query path (`main`). -/
theorem summary_failure_not_fatal (env : QueryEnv) (query : String) (t0 : Nat)
    (msg : String) (res : SearchResult) (sEng : Nat → GenResult) (msg2 : String)
    (hexec : (performSingleSearch env.engine env.dur query t0).goErr = none)
    (hsum : generateSummary env.sumEngine = Except.error msg)
    (hres : res.success = true)
    (hsum2 : generateSummary sEng = Except.error msg2) :
    ((processQuery env true query t0).success = true ∧
     (processQuery env true query t0).summary = "Summary generation failed") ∧
    ((mainSingleSummary res true sEng).success = true ∧
     (mainSingleSummary res true sEng).summary = "Summary generation failed") := by
  have hsucc : (performSingleSearch env.engine env.dur query t0).result.success
      = true :=
    (performSingleSearch_success_iff env.engine env.dur query t0).mpr hexec
  constructor
  · constructor <;> simp [processQuery, hexec, hsucc, hsum, summaryOrSentinel]
  · constructor <;> simp [mainSingleSummary, hres, hsum2, summaryOrSentinel]

/-- A query environment whose searches succeed but whose summarization
calls always error. -/
def okButSummaryErrEnv : QueryEnv :=
  { engine := fun _ => { err := none, text := "answer" },
    dur := fun _ => 1,
    sumEngine := fun _ => { err := some "boom", text := "" } }

/-- Witness for `summary_failure_not_fatal`: with a succeeding search and
an always-erroring summarizer, both paths keep success and set the
sentinel summary. -/
theorem summary_failure_not_fatal_witness :
    ((processQuery okButSummaryErrEnv true "q" 0).success = true ∧
     (processQuery okButSummaryErrEnv true "q" 0).summary
        = "Summary generation failed") ∧
    ((mainSingleSummary
        (performSingleSearch okButSummaryErrEnv.engine okButSummaryErrEnv.dur
          "q" 0).result true okButSummaryErrEnv.sumEngine).success = true ∧
     (mainSingleSummary
        (performSingleSearch okButSummaryErrEnv.engine okButSummaryErrEnv.dur
          "q" 0).result true okButSummaryErrEnv.sumEngine).summary
        = "Summary generation failed") :=
  summary_failure_not_fatal okButSummaryErrEnv "q" 0
    "failed to generate summary after retries: boom"
    (performSingleSearch okButSummaryErrEnv.engine okButSummaryErrEnv.dur
      "q" 0).result
    okButSummaryErrEnv.sumEngine
    "failed to generate summary after retries: boom"
    (by decide) rfl (by decide) rfl

/-- C9 (amended): for a query processed with summarization requested whose
executor call succeeded, the outcome agrees with the executor's own
outcome on query, answer text, success, failure reason, elapsed duration
and start timestamp — the summarization step touches only the summary
field and its time is excluded from the reported duration. -/
theorem summarization_frame (env : QueryEnv) (query : String) (t0 : Nat)
    (hexec : (performSingleSearch env.engine env.dur query t0).goErr = none) :
    (processQuery env true query t0).query
        = (performSingleSearch env.engine env.dur query t0).result.query ∧
    (processQuery env true query t0).response
        = (performSingleSearch env.engine env.dur query t0).result.response ∧
    (processQuery env true query t0).success
        = (performSingleSearch env.engine env.dur query t0).result.success ∧
    (processQuery env true query t0).error
        = (performSingleSearch env.engine env.dur query t0).result.error ∧
    (processQuery env true query t0).duration
        = (performSingleSearch env.engine env.dur query t0).result.duration ∧
    (processQuery env true query t0).timestamp
        = (performSingleSearch env.engine env.dur query t0).result.timestamp := by
  by_cases h1 : (searchLoop env.engine env.dur t0).resp.err.isSome <;>
    by_cases h2 : (searchLoop env.engine env.dur t0).resp.text = ""
  · simp [performSingleSearch, h1, h2] at hexec
  · simp [performSingleSearch, h1, h2] at hexec
  · simp [performSingleSearch, h1, h2] at hexec
  · refine ⟨?_, ?_, ?_, ?_, ?_, ?_⟩ <;>
      simp [processQuery, performSingleSearch, h1, h2, summaryOrSentinel]

/-- A query environment whose engine calls always error. -/
def errEngineEnv : QueryEnv :=
  { engine := fun _ => { err := some "boom", text := "" },
    dur := fun _ => 1,
    sumEngine := fun _ => { err := none, text := "s" } }

/-- Counterexample to C9 as stated: for a FAILING query processed with
summarization requested, the batch outcome's failure reason is the
wrapping Go error message, not the executor outcome's short failure
reason, so the fields are not identical for every query. -/
theorem summarization_frame_counterexample :
    (processQuery errEngineEnv true "q" 0).error
      ≠ (performSingleSearch errEngineEnv.engine errEngineEnv.dur "q" 0).result.error
    ∧ (processQuery errEngineEnv true "q" 0).error
        = "failed to generate content after retries: boom"
    ∧ (performSingleSearch errEngineEnv.engine errEngineEnv.dur "q" 0).result.error
        = "Search failed" := by
  refine ⟨?_, ?_, ?_⟩ <;> decide

/-- Witness for `summarization_frame`: a succeeding engine at a concrete
input. -/
theorem summarization_frame_witness :
    (processQuery okButSummaryErrEnv true "q" 0).query
        = (performSingleSearch okButSummaryErrEnv.engine okButSummaryErrEnv.dur
            "q" 0).result.query ∧
    (processQuery okButSummaryErrEnv true "q" 0).response
        = (performSingleSearch okButSummaryErrEnv.engine okButSummaryErrEnv.dur
            "q" 0).result.response ∧
    (processQuery okButSummaryErrEnv true "q" 0).success
        = (performSingleSearch okButSummaryErrEnv.engine okButSummaryErrEnv.dur
            "q" 0).result.success ∧
    (processQuery okButSummaryErrEnv true "q" 0).error
        = (performSingleSearch okButSummaryErrEnv.engine okButSummaryErrEnv.dur
            "q" 0).result.error ∧
    (processQuery okButSummaryErrEnv true "q" 0).duration
        = (performSingleSearch okButSummaryErrEnv.engine okButSummaryErrEnv.dur
            "q" 0).result.duration ∧
    (processQuery okButSummaryErrEnv true "q" 0).timestamp
        = (performSingleSearch okButSummaryErrEnv.engine okButSummaryErrEnv.dur
            "q" 0).result.timestamp :=
  summarization_frame okButSummaryErrEnv "q" 0 (by decide)

/-- C4 (amended): when the non-streaming executor exhausts both attempts,
its own outcome has `success=false`, empty answer text, and failure reason
`"Search failed"` (final call error) or `"Empty response"` (final empty
answer); the per-query outcome stored in a batch also has `success=false`
and empty answer text, but its failure reason is the executor's returned
Go error message: `"failed to generate content after retries: <err>"`
resp. `"received empty response after retries"`. -/
theorem exhausted_failure_reasons (env : QueryEnv) (includeSummary : Bool)
    (query : String) (t0 : Nat)
    (h0 : attemptOk (env.engine 0) = false)
    (h1 : attemptOk (env.engine 1) = false) :
    ((performSingleSearch env.engine env.dur query t0).result.success = false ∧
     (performSingleSearch env.engine env.dur query t0).result.response = "" ∧
     ((env.engine 1).err ≠ none →
        (performSingleSearch env.engine env.dur query t0).result.error
          = "Search failed") ∧
     ((env.engine 1).err = none →
        (performSingleSearch env.engine env.dur query t0).result.error
          = "Empty response")) ∧
    ((processQuery env includeSummary query t0).success = false ∧
     (processQuery env includeSummary query t0).response = "" ∧
     (∀ e, (env.engine 1).err = some e →
        (processQuery env includeSummary query t0).error
          = "failed to generate content after retries: " ++ e) ∧
     ((env.engine 1).err = none →
        (processQuery env includeSummary query t0).error
          = "received empty response after retries")) := by
  cases herr : (env.engine 1).err with
  | some e =>
      refine ⟨⟨?_, ?_, ?_, ?_⟩, ?_, ?_, ?_, ?_⟩ <;>
        simp [performSingleSearch, processQuery, searchLoop, h0, herr]
  | none =>
      have ht1 : (env.engine 1).text = "" := by
        rcases (attemptOk_eq_false_iff (env.engine 1)).mp h1 with h | h
        · exact absurd herr h
        · exact h
      refine ⟨⟨?_, ?_, ?_, ?_⟩, ?_, ?_, ?_, ?_⟩ <;>
        simp [performSingleSearch, processQuery, searchLoop, h0, herr, ht1]

/-- A query environment whose engine always returns empty text without
error. -/
def emptyEngineEnv : QueryEnv :=
  { engine := fun _ => { err := none, text := "" },
    dur := fun _ => 1,
    sumEngine := fun _ => { err := none, text := "s" } }

/-- Counterexample to C4 as stated: for an engine returning empty text on
both attempts, the per-query outcome stored by the batch has failure
reason `"received empty response after retries"` — not the short fixed
string `"Empty response"` (nor `"Search failed"`). -/
theorem exhausted_failure_reasons_counterexample :
    ((processMultipleQueries (fun _ => emptyEngineEnv) false ["q"] 0 0
        [0]).results.getD 0 SearchResult.zero).success = false ∧
    ((processMultipleQueries (fun _ => emptyEngineEnv) false ["q"] 0 0
        [0]).results.getD 0 SearchResult.zero).error
      = "received empty response after retries" ∧
    ((processMultipleQueries (fun _ => emptyEngineEnv) false ["q"] 0 0
        [0]).results.getD 0 SearchResult.zero).error ≠ "Empty response" ∧
    ((processMultipleQueries (fun _ => emptyEngineEnv) false ["q"] 0 0
        [0]).results.getD 0 SearchResult.zero).error ≠ "Search failed" := by
  refine ⟨?_, ?_, ?_, ?_⟩ <;> decide

/-- Witness for `exhausted_failure_reasons`: an engine empty on both
attempts yields `"Empty response"` in the executor's own outcome and the
wrapping message in the batch-stored outcome. -/
theorem exhausted_failure_reasons_witness :
    (performSingleSearch emptyEngineEnv.engine emptyEngineEnv.dur "q" 0).result.error
        = "Empty response" ∧
    (processQuery emptyEngineEnv false "q" 0).error
        = "received empty response after retries" :=
  ⟨(exhausted_failure_reasons emptyEngineEnv false "q" 0
      (by decide) (by decide)).1.2.2.2 (by decide),
   (exhausted_failure_reasons emptyEngineEnv false "q" 0
      (by decide) (by decide)).2.2.2.2 (by decide)⟩

/-- The batch failure summary string is never empty. -/
theorem failureSummary_ne_empty (k n : Nat) : failureSummary k n ≠ "" := by
  unfold failureSummary
  intro h
  have hd := congrArg String.data h
  simp only [String.data_append] at hd
  rcases List.append_eq_nil.mp hd with ⟨hd1, _⟩
  rcases List.append_eq_nil.mp hd1 with ⟨hd2, _⟩
  rcases List.append_eq_nil.mp hd2 with ⟨hd3, _⟩
  rcases List.append_eq_nil.mp hd3 with ⟨hd4, _⟩
  exact absurd hd4 (by decide)

/-- C1: for every batch of N input queries and every completion order of
the workers (a permutation of the indices), the batch outcome's results
sequence has length N and the outcome in slot i carries the i-th input
query. -/
theorem batch_results_index_aligned (env : Nat → QueryEnv)
    (includeSummary : Bool) (queries : List String) (t0 tTotal : Nat)
    (order : List Nat)
    (hperm : List.Perm order (List.range queries.length)) :
    (processMultipleQueries env includeSummary queries t0 tTotal
        order).results.length = queries.length ∧
    ∀ i, i < queries.length →
      ((processMultipleQueries env includeSummary queries t0 tTotal
          order).results.getD i SearchResult.zero).query
        = queries.getD i "" := by
  constructor
  · simp [processMultipleQueries, foldWrites_length]
  · intro i hi
    have hmem : i ∈ order := hperm.mem_iff.mpr (List.mem_range.mpr hi)
    have hlen : i < (List.replicate queries.length SearchResult.zero).length := by
      simpa using hi
    have hw := foldWrites_getD_mem
      (batchOutcome env includeSummary queries t0) order
      (List.replicate queries.length SearchResult.zero) i SearchResult.zero
      hmem hlen
    simp only [processMultipleQueries]
    rw [hw]
    exact processQuery_query (env i) includeSummary (queries.getD i "") t0

/-- Distinct canned answer texts per query index. -/
def twoQueryText (i : Nat) : String :=
  if i = 0 then "about Go" else "about Python"

/-- An environment whose engines answer distinct texts per query index. -/
def twoQueryEnv : Nat → QueryEnv :=
  fun i =>
    { engine := fun _ => { err := none, text := twoQueryText i },
      dur := fun _ => 1,
      sumEngine := fun _ => { err := none, text := "sum" } }

/-- Witness for `batch_results_index_aligned`: two queries completing in
reversed order still land index-aligned. -/
theorem batch_results_index_aligned_witness :
    (processMultipleQueries twoQueryEnv true ["Go", "Python"] 0 9
        [1, 0]).results.length = (["Go", "Python"] : List String).length ∧
    ∀ i, i < (["Go", "Python"] : List String).length →
      ((processMultipleQueries twoQueryEnv true ["Go", "Python"] 0 9
          [1, 0]).results.getD i SearchResult.zero).query
        = (["Go", "Python"] : List String).getD i "" :=
  batch_results_index_aligned twoQueryEnv true ["Go", "Python"] 0 9 [1, 0]
    (by decide)

/-- C2: the batch success flag is true iff every per-query outcome
succeeded; the failure summary string is present (non-empty) iff the flag
is false, in which case it is the `"Completed k/n queries successfully"`
string with k the number of successful outcomes and n the number of
queries. -/
theorem batch_success_flag (env : Nat → QueryEnv) (includeSummary : Bool)
    (queries : List String) (t0 tTotal : Nat) (order : List Nat) :
    ((processMultipleQueries env includeSummary queries t0 tTotal
        order).success = true ↔
      ∀ r ∈ (processMultipleQueries env includeSummary queries t0 tTotal
          order).results, r.success = true) ∧
    ((processMultipleQueries env includeSummary queries t0 tTotal
        order).error ≠ "" ↔
      (processMultipleQueries env includeSummary queries t0 tTotal
          order).success = false) ∧
    ((processMultipleQueries env includeSummary queries t0 tTotal
        order).success = false →
      (processMultipleQueries env includeSummary queries t0 tTotal
          order).error
        = failureSummary
            ((processMultipleQueries env includeSummary queries t0 tTotal
                order).results.countP (fun r => r.success))
            queries.length) := by
  have hlen := foldWrites_length (batchOutcome env includeSummary queries t0)
    order (List.replicate queries.length SearchResult.zero)
  rw [List.length_replicate] at hlen
  refine ⟨?_, ?_, ?_⟩
  · simp only [processMultipleQueries, beq_iff_eq]
    constructor
    · intro h r hr
      exact List.countP_eq_length.mp (h.trans hlen.symm) r hr
    · intro h
      exact (List.countP_eq_length.mpr h).trans hlen
  · by_cases hc : (foldWrites (batchOutcome env includeSummary queries t0)
        order (List.replicate queries.length SearchResult.zero)).countP
          (fun r => r.success) = queries.length
    · simp [processMultipleQueries, hc]
    · simp [processMultipleQueries, hc, failureSummary_ne_empty]
  · intro hs
    by_cases hc : (foldWrites (batchOutcome env includeSummary queries t0)
        order (List.replicate queries.length SearchResult.zero)).countP
          (fun r => r.success) = queries.length
    · simp [processMultipleQueries, hc] at hs
    · simp [processMultipleQueries, hc]

/-- C8: the number of workers simultaneously inside the semaphore-guarded
region — executor calls in flight — never exceeds the configured capacity,
in any state reachable from the start of the batch by scheduler steps. -/
theorem batch_inflight_bounded (cap n : Nat) (s : List Phase)
    (hreach : Relation.ReflTransGen (PoolStep cap) (initPool n) s) :
    countRunning s ≤ cap := by
  induction hreach with
  | refl => simp [countRunning_initPool]
  | tail _ hstep ih => exact poolStep_preserves hstep ih

/-- Witness for `batch_inflight_bounded`: after one worker of three
acquires a capacity-2 semaphore, at most 2 are in flight. -/
theorem batch_inflight_bounded_witness :
    countRunning ((initPool 3).set 0 Phase.running) ≤ 2 :=
  batch_inflight_bounded 2 3 ((initPool 3).set 0 Phase.running)
    (Relation.ReflTransGen.single
      (PoolStep.acquire (initPool 3) 0 (by decide) (by decide)))
